import Mathlib

/-!
# Request-context middleware: `middleware/req/req.go`

A shallow embedding of package `req` together with the small part of the Go
standard library it touches (`context` value lookup, `errors.New`, and the
`net/http` request fields and header accessors it reads), followed by the
properties of the middleware and of its twelve accessors.

Modelling conventions
* Go `string` is `String`; `s == ""` is `s = ""`.
* Go `any` is the inductive `Any`; interface equality `==` (same dynamic type and
  equal value) is structural equality on `Any`.
* A Go function returning `(string, error)` returns the pair `String × error`,
  where `error` is `Option errors.errorString` and `none` is the `nil` error.
* A `context.Context` is the immutable chain of nodes the standard library builds.
* Pointers that `net/http` guarantees to be non-nil for a request delivered to a
  handler (`r`, `r.URL`, `next`) are modelled by the record they point to.
* A handler is its effect on the response writer: a function from the writer state
  and the request to either a panic message or the new writer state.
-/

set_option autoImplicit false

/-- Go's `any` (the empty interface): a dynamically typed value. The constructor
`errKey` holds values whose dynamic type is the package-private `req.errKey`;
`foreign` stands for a value of any other dynamic type, identified by its type
name and a printed representation. -/
inductive Any where
  | nil
  | string (s : String)
  | int (n : Int)
  | bool (b : Bool)
  | errKey (n : Int)
  | foreign (typ : String) (repr : String)
  deriving DecidableEq, Repr

/-- The type assertion `v.(string)` in its two-result form: the string and `true`
when the dynamic type of `v` is `string`, the zero value `""` and `false` otherwise
(also for the `nil` interface). -/
def Any.assertString : Any → String × Bool
  | Any.string s => (s, true)
  | _ => ("", false)

namespace errors

/-- The `*errors.errorString` produced by `errors.New`: it carries its message. -/
structure errorString where
  s : String
  deriving DecidableEq, Repr

/-- The method `Error()` of an error value. -/
def errorString.Error (e : errorString) : String := e.s

end errors

/-- Go's `error` interface, as far as this package uses it: `none` is `nil`. -/
abbrev error := Option errors.errorString

namespace errors

/-- The constructor `errors.New(text)`. -/
def New (text : String) : error := some ⟨text⟩

end errors

namespace context

/-- A `context.Context` as built by package `context`: the empty context
(`Background()` / `TODO()`), a `valueCtx` node made by `WithValue`, or a node that
carries no value of its own (`WithCancel`, `WithDeadline`, `WithTimeout`). -/
inductive Context where
  | emptyCtx
  | valueCtx (parent : Context) (key : Any) (val : Any)
  | cancelCtx (parent : Context)
  deriving Repr

/-- The root context `context.Background()`. -/
def Background : Context := Context.emptyCtx

/-- The call `context.WithValue(parent, key, val)`: a new node on top of `parent`; `parent`
itself is left as it is. -/
def WithValue (parent : Context) (key : Any) (val : Any) : Context :=
  Context.valueCtx parent key val

/-- The method `ctx.Value(key)`: the value of the nearest `valueCtx` node whose key equals
`key`, and `nil` when the chain has none. -/
def Context.Value : Context → Any → Any
  | Context.emptyCtx, _ => Any.nil
  | Context.valueCtx parent k v, key => if k = key then v else parent.Value key
  | Context.cancelCtx parent, key => parent.Value key

/-- The nearest binding of `key` in a context: `some v` for the value of the first
`valueCtx` node, counted from the outermost layer, whose key is `key`; `none` when no
node binds `key`. Unlike `Value`, it tells an absent key from a key bound to `nil`. -/
def Context.binding : Context → Any → Option Any
  | Context.emptyCtx, _ => none
  | Context.valueCtx parent k v, key => if k = key then some v else parent.binding key
  | Context.cancelCtx parent, key => parent.binding key

end context

open context (Context)

namespace url

/-- The part of `url.URL` that the middleware can observe. -/
structure URL where
  Path : String
  RawQuery : String
  deriving DecidableEq, Repr

end url

namespace http

/-- An `http.Header`: the map from canonical header names to their values, as an
association list in which the first entry for a name is the map's entry. -/
structure Header where
  entries : List (String × List String)
  deriving DecidableEq, Repr

/-- The method `h.Get(key)` for a `key` already in canonical form: the first value stored under
`key`, and `""` when there is none. -/
def Header.Get (h : Header) (key : String) : String :=
  match h.entries.lookup key with
  | some (v :: _) => v
  | _ => ""

/-- An `http.Request` as a handler receives it. -/
structure Request where
  Method : String
  URL : url.URL
  Header : http.Header
  RemoteAddr : String
  RequestURI : String
  ctx : Option context.Context

/-- The method `r.Context()`: the request's context, the background context when none is set. -/
def Request.Context (r : Request) : context.Context :=
  match r.ctx with
  | some c => c
  | none => context.Background

/-- The method `r.WithContext(ctx)`: a copy of `r` with its context replaced by `ctx`. -/
def Request.WithContext (r : Request) (ctx : context.Context) : Request :=
  { r with ctx := some ctx }

/-- The method `r.Referer()`: the `Referer` header. -/
def Request.Referer (r : Request) : String := r.Header.Get "Referer"

/-- The method `r.UserAgent()`: the `User-Agent` header. -/
def Request.UserAgent (r : Request) : String := r.Header.Get "User-Agent"

/-- The state behind an `http.ResponseWriter`: the header map, the status code once
written, and the body chunks written so far. -/
structure ResponseWriter where
  header : Header
  status : Option Nat
  body : List String
  deriving DecidableEq, Repr

/-- An `http.Handler`: `ServeHTTP(w, r)` either panics with a message or leaves the
response writer in a new state. -/
structure Handler where
  ServeHTTP : ResponseWriter → Request → Except String ResponseWriter

/-- The adapter `http.HandlerFunc(f)`: the handler whose `ServeHTTP` calls `f`. -/
def HandlerFunc (f : ResponseWriter → Request → Except String ResponseWriter) : Handler :=
  ⟨f⟩

end http

namespace req

open http (Request ResponseWriter Handler)

/-- The key type, `type errKey int`. -/
abbrev errKey := Int

/-- First constant of the `iota` block, `requestURI errKey = iota`. -/
def requestURI : errKey := 0
/-- Second constant of the `iota` block. -/
def method : errKey := 1
/-- Third constant of the `iota` block. -/
def path : errKey := 2
/-- Fourth constant of the `iota` block. -/
def referer : errKey := 3
/-- Fifth constant of the `iota` block. -/
def userAgent : errKey := 4
/-- Sixth constant of the `iota` block. -/
def addr : errKey := 5

/-- Source comment: `New returns http.Handler.` The closure layers the six request fields onto the
request's context and calls `next` with the request carrying that context. -/
def New (next : Handler) : Handler :=
  let fn := fun (w : ResponseWriter) (r : Request) =>
    let ctx := r.Context
    let ctx := context.WithValue ctx (Any.errKey requestURI) (Any.string r.RequestURI)
    let ctx := context.WithValue ctx (Any.errKey method) (Any.string r.Method)
    let ctx := context.WithValue ctx (Any.errKey path) (Any.string r.URL.Path)
    let ctx := context.WithValue ctx (Any.errKey referer) (Any.string r.Referer)
    let ctx := context.WithValue ctx (Any.errKey userAgent) (Any.string r.UserAgent)
    let ctx := context.WithValue ctx (Any.errKey addr) (Any.string r.RemoteAddr)
    let r := r.WithContext ctx
    next.ServeHTTP w r
  http.HandlerFunc fn

/-- Source comment: `GetRemoteAddr returns remoteAddr.` -/
def GetRemoteAddr (ctx : Context) : String × error :=
  let (a, ok) := (ctx.Value (Any.errKey addr)).assertString
  if !ok then
    ("", errors.New "failed to get remote address")
  else
    (a, none)

/-- Source comment: `RemoteAddr returns remoteAddr.` -/
def RemoteAddr (ctx : Context) (fallback : String) : String :=
  let (a, err) := GetRemoteAddr ctx
  if a = "" ∨ err ≠ none then
    fallback
  else
    a

/-- Source comment: `GetUserAgent returns user agent.` -/
def GetUserAgent (ctx : Context) : String × error :=
  let (ua, ok) := (ctx.Value (Any.errKey userAgent)).assertString
  if !ok then
    ("", errors.New "failed to get user-agent")
  else
    (ua, none)

/-- Source comment: `UserAgent returns user-agent or fallback`. -/
def UserAgent (ctx : Context) (fallback : String) : String :=
  let (u, err) := GetUserAgent ctx
  if u = "" ∨ err ≠ none then
    fallback
  else
    u

/-- Source comment: `GetReferer returns referer.` -/
def GetReferer (ctx : Context) : String × error :=
  let (r, ok) := (ctx.Value (Any.errKey referer)).assertString
  if !ok then
    ("", errors.New "failed to get referer")
  else
    (r, none)

/-- Source comment: `Referer returns referer or fallback`. -/
def Referer (ctx : Context) (fallback : String) : String :=
  let (r, err) := GetReferer ctx
  if r = "" ∨ err ≠ none then
    fallback
  else
    r

/-- Source comment: `GetPath returns path.` -/
def GetPath (ctx : Context) : String × error :=
  let (p, ok) := (ctx.Value (Any.errKey path)).assertString
  if !ok then
    ("", errors.New "failed to get path")
  else
    (p, none)

/-- Source comment: `Path returns path or fallback`. -/
def Path (ctx : Context) (fallback : String) : String :=
  let (p, err) := GetPath ctx
  if p = "" ∨ err ≠ none then
    fallback
  else
    p

/-- Source comment: `GetMethod returns method.` -/
def GetMethod (ctx : Context) : String × error :=
  let (m, ok) := (ctx.Value (Any.errKey method)).assertString
  if !ok then
    ("", errors.New "failed to get method")
  else
    (m, none)

/-- Source comment: `Method returns method or fallback.` -/
def Method (ctx : Context) (fallback : String) : String :=
  let (m, err) := GetMethod ctx
  if m = "" ∨ err ≠ none then
    fallback
  else
    m

/-- Source comment: `GetRequestURI returns requestURI.` -/
def GetRequestURI (ctx : Context) : String × error :=
  let (u, ok) := (ctx.Value (Any.errKey requestURI)).assertString
  if !ok then
    ("", errors.New "failed to get requestURI")
  else
    (u, none)

/-- Source comment: `RequestURI returns requestURI or fallback.` -/
def RequestURI (ctx : Context) (fallback : String) : String :=
  let (u, err) := GetRequestURI ctx
  if u = "" ∨ err ≠ none then
    fallback
  else
    u

/-! ## Vocabulary for the statements -/

/-- The six fields the middleware records. -/
inductive Field where
  | RequestURI
  | Method
  | Path
  | Referer
  | UserAgent
  | RemoteAddr
  deriving DecidableEq, Repr

/-- The private context key under which a field is stored. -/
def Field.key : Field → errKey
  | Field.RequestURI => requestURI
  | Field.Method => method
  | Field.Path => path
  | Field.Referer => referer
  | Field.UserAgent => userAgent
  | Field.RemoteAddr => addr

/-- The accessor `GetF` of a field. -/
def Field.Get : Field → Context → String × error
  | Field.RequestURI => GetRequestURI
  | Field.Method => GetMethod
  | Field.Path => GetPath
  | Field.Referer => GetReferer
  | Field.UserAgent => GetUserAgent
  | Field.RemoteAddr => GetRemoteAddr

/-- The accessor `F` with fallback of a field. -/
def Field.OrFallback : Field → Context → String → String
  | Field.RequestURI => req.RequestURI
  | Field.Method => req.Method
  | Field.Path => req.Path
  | Field.Referer => req.Referer
  | Field.UserAgent => req.UserAgent
  | Field.RemoteAddr => req.RemoteAddr

/-- The value a request carries for a field. -/
def Field.ofRequest : Field → Request → String
  | Field.RequestURI, r => r.RequestURI
  | Field.Method, r => r.Method
  | Field.Path, r => r.URL.Path
  | Field.Referer, r => r.Header.Get "Referer"
  | Field.UserAgent, r => r.Header.Get "User-Agent"
  | Field.RemoteAddr, r => r.RemoteAddr

/-- The name of a field as it is written in the error messages. -/
def Field.label : Field → String
  | Field.RequestURI => "requestURI"
  | Field.Method => "method"
  | Field.Path => "path"
  | Field.Referer => "referer"
  | Field.UserAgent => "user-agent"
  | Field.RemoteAddr => "remote address"

/-- The six error messages, field by field, as the claim about them lists them. -/
def Field.message : Field → String
  | Field.RequestURI => "failed to get requestURI"
  | Field.Method => "failed to get method"
  | Field.Path => "failed to get path"
  | Field.Referer => "failed to get referer"
  | Field.UserAgent => "failed to get user-agent"
  | Field.RemoteAddr => "failed to get remote address"

/-- The context that the closure of `New` builds for a request `r` and attaches to the
request it passes on: the six layers over `r.Context()`, innermost first. -/
def derivedCtx (r : Request) : Context :=
  context.WithValue
    (context.WithValue
      (context.WithValue
        (context.WithValue
          (context.WithValue
            (context.WithValue r.Context (Any.errKey requestURI) (Any.string r.RequestURI))
            (Any.errKey method) (Any.string r.Method))
          (Any.errKey path) (Any.string r.URL.Path))
        (Any.errKey referer) (Any.string r.Referer))
      (Any.errKey userAgent) (Any.string r.UserAgent))
    (Any.errKey addr) (Any.string r.RemoteAddr)

/-- The request of the end-to-end scenario: method `POST`, path `/items`, no `Referer`
header, `User-Agent: curl/8.0`, remote address `10.0.0.5:443`. -/
def scenarioRequest : Request where
  Method := "POST"
  URL := ⟨"/items", ""⟩
  Header := ⟨[("User-Agent", ["curl/8.0"])]⟩
  RemoteAddr := "10.0.0.5:443"
  RequestURI := "/items"
  ctx := none

/-- A response writer to which nothing has been written yet. -/
def blankWriter : ResponseWriter := ⟨⟨[]⟩, none, []⟩

/-- A handler that writes nothing and returns. -/
def idle : Handler := ⟨fun w _ => Except.ok w⟩

/-- A handler that appends one line naming the method and request URI it was called
with to the body. -/
def tally : Handler :=
  ⟨fun w r => Except.ok { w with body := w.body ++ [r.Method ++ " " ++ r.RequestURI] }⟩

/-- A context that never passed through `New`: it holds one unrelated key above a
cancellation node. -/
def rawCtx : Context :=
  Context.valueCtx (Context.cancelCtx Context.emptyCtx) (Any.foreign "main.userKey" "0") (Any.int 7)

/-- A context in which the method key is bound to a value that is not a string. -/
def oddCtx : Context :=
  Context.valueCtx Context.emptyCtx (Any.errKey method) (Any.int 42)

/-- The context found `n` layers below the top of a context (the context itself when
the chain is shorter). -/
def ancestor : Nat → Context → Context
  | 0, c => c
  | n + 1, Context.valueCtx parent _ _ => ancestor n parent
  | n + 1, Context.cancelCtx parent => ancestor n parent
  | _ + 1, Context.emptyCtx => Context.emptyCtx

/-! ## Lemmas -/

theorem Value_eq_binding (ctx : Context) (key : Any) :
    ctx.Value key = (ctx.binding key).getD Any.nil := by
  induction ctx with
  | emptyCtx => rfl
  | valueCtx parent k v ih =>
    by_cases h : k = key
    · simp [Context.Value, Context.binding, h]
    · simp [Context.Value, Context.binding, h, ih]
  | cancelCtx parent ih => simpa [Context.Value, Context.binding] using ih

theorem Get_eq (F : Field) (ctx : Context) :
    F.Get ctx =
      match ctx.Value (Any.errKey F.key) with
      | Any.string s => (s, none)
      | _ => ("", some ⟨"failed to get " ++ F.label⟩) := by
  cases F <;>
    simp only [Field.Get, Field.key, Field.label, GetRequestURI, GetMethod, GetPath, GetReferer,
      GetUserAgent, GetRemoteAddr] <;>
    cases Context.Value ctx _ <;> simp [Any.assertString, errors.New]

theorem OrFallback_eq (F : Field) (ctx : Context) (fb : String) :
    F.OrFallback ctx fb =
      if (F.Get ctx).1 = "" ∨ (F.Get ctx).2 ≠ none then fb else (F.Get ctx).1 := by
  cases F <;> rfl

theorem New_ServeHTTP (next : Handler) (w : ResponseWriter) (r : Request) :
    (New next).ServeHTTP w r = next.ServeHTTP w (r.WithContext (derivedCtx r)) := rfl

theorem derivedCtx_Value (F : Field) (r : Request) :
    (derivedCtx r).Value (Any.errKey F.key) = Any.string (F.ofRequest r) := by
  cases F <;>
    simp [derivedCtx, context.WithValue, Context.Value, Field.key, Field.ofRequest, requestURI,
      method, path, referer, userAgent, addr, Request.Referer, Request.UserAgent]

theorem derivedCtx_binding (F : Field) (r : Request) :
    (derivedCtx r).binding (Any.errKey F.key) = some (Any.string (F.ofRequest r)) := by
  cases F <;>
    simp [derivedCtx, context.WithValue, Context.binding, Field.key, Field.ofRequest, requestURI,
      method, path, referer, userAgent, addr, Request.Referer, Request.UserAgent]

theorem derivedCtx_Get (F : Field) (r : Request) :
    F.Get (derivedCtx r) = (F.ofRequest r, none) := by
  rw [Get_eq, derivedCtx_Value]

theorem ofRequest_WithContext (F : Field) (r : Request) (c : Context) :
    F.ofRequest (r.WithContext c) = F.ofRequest r := by
  cases F <;> rfl

theorem WithContext_Context (r : Request) (c : Context) : (r.WithContext c).Context = c :=
  rfl

theorem derivedCtx_frame (r : Request) (k : Any) (h : ∀ F : Field, k ≠ Any.errKey F.key) :
    (derivedCtx r).binding k = r.Context.binding k := by
  have h1 := Ne.symm (h Field.RequestURI)
  have h2 := Ne.symm (h Field.Method)
  have h3 := Ne.symm (h Field.Path)
  have h4 := Ne.symm (h Field.Referer)
  have h5 := Ne.symm (h Field.UserAgent)
  have h6 := Ne.symm (h Field.RemoteAddr)
  simp only [Field.key] at h1 h2 h3 h4 h5 h6
  simp [derivedCtx, context.WithValue, Context.binding, h1, h2, h3, h4, h5, h6]

/-! ## Properties of the middleware and its accessors -/

/-- Claim C1: for every handler `next`, writer `w` and request `r` (whatever context `r`
carries), `New next` passes to `next` the request with context `derivedCtx r`, and on that
context each `GetF` returns the value `r` carried for its own field together with the nil
error: `r.RequestURI`, `r.Method`, `r.URL.Path`, the `Referer` header, the `User-Agent`
header and `r.RemoteAddr`. Nothing is assumed about the values, so empty ones are covered. -/
theorem C1_Get_returns_request_fields (next : Handler) (w : ResponseWriter) (r : Request) :
    (New next).ServeHTTP w r = next.ServeHTTP w (r.WithContext (derivedCtx r)) ∧
    (r.WithContext (derivedCtx r)).Context = derivedCtx r ∧
    GetRequestURI (derivedCtx r) = (r.RequestURI, none) ∧
    GetMethod (derivedCtx r) = (r.Method, none) ∧
    GetPath (derivedCtx r) = (r.URL.Path, none) ∧
    GetReferer (derivedCtx r) = (r.Header.Get "Referer", none) ∧
    GetUserAgent (derivedCtx r) = (r.Header.Get "User-Agent", none) ∧
    GetRemoteAddr (derivedCtx r) = (r.RemoteAddr, none) :=
  ⟨rfl, rfl, derivedCtx_Get Field.RequestURI r, derivedCtx_Get Field.Method r,
    derivedCtx_Get Field.Path r, derivedCtx_Get Field.Referer r,
    derivedCtx_Get Field.UserAgent r, derivedCtx_Get Field.RemoteAddr r⟩

/-- Claim C2: on the context `New next` passes to `next`, the accessor `F` with fallback `fb`
returns the request's value for the field when that value is non-empty and `fb` when it is
empty; in the end-to-end scenario `Method(ctx, "GET") = "POST"`,
`Referer(ctx, "direct") = "direct"`, `UserAgent(ctx, "") = "curl/8.0"` and
`RemoteAddr(ctx, "unknown") = "10.0.0.5:443"`. -/
theorem C2_fallback_after_New (next : Handler) (w : ResponseWriter) (r : Request)
    (fb : String) (F : Field) :
    (New next).ServeHTTP w r = next.ServeHTTP w (r.WithContext (derivedCtx r)) ∧
    (r.WithContext (derivedCtx r)).Context = derivedCtx r ∧
    F.OrFallback (derivedCtx r) fb = (if F.ofRequest r = "" then fb else F.ofRequest r) ∧
    (New next).ServeHTTP w scenarioRequest =
      next.ServeHTTP w (scenarioRequest.WithContext (derivedCtx scenarioRequest)) ∧
    Method (derivedCtx scenarioRequest) "GET" = "POST" ∧
    Referer (derivedCtx scenarioRequest) "direct" = "direct" ∧
    UserAgent (derivedCtx scenarioRequest) "" = "curl/8.0" ∧
    RemoteAddr (derivedCtx scenarioRequest) "unknown" = "10.0.0.5:443" := by
  refine ⟨rfl, rfl, ?_, rfl, ?_, ?_, ?_, ?_⟩
  · rw [OrFallback_eq, derivedCtx_Get]; simp
  · decide
  · decide
  · decide
  · decide

/-- Claim C3: on a context in which none of the six private keys is bound, every `GetF`
returns the empty string together with a non-nil error, and every `F` returns its
fallback, whatever the fallback is. -/
theorem C3_unbound_context (ctx : Context)
    (h : ∀ G : Field, ctx.binding (Any.errKey G.key) = none) (F : Field) :
    (F.Get ctx).1 = "" ∧ (F.Get ctx).2 ≠ none ∧ ∀ fb : String, F.OrFallback ctx fb = fb := by
  have hv : ctx.Value (Any.errKey F.key) = Any.nil := by
    rw [Value_eq_binding, h F]; rfl
  have hg : F.Get ctx = ("", some ⟨"failed to get " ++ F.label⟩) := by
    rw [Get_eq, hv]
  refine ⟨by rw [hg], by rw [hg]; simp, ?_⟩
  intro fb
  rw [OrFallback_eq, hg]; simp

/-- Witness for C3: the raw context `rawCtx`, which holds only an unrelated key, binds none
of the six private keys, and `GetMethod` and `Method` behave there as C3 says. -/
theorem C3_unbound_context_witness :
    (∀ G : Field, rawCtx.binding (Any.errKey G.key) = none) ∧
    ((Field.Method.Get rawCtx).1 = "" ∧ (Field.Method.Get rawCtx).2 ≠ none ∧
      ∀ fb : String, Field.Method.OrFallback rawCtx fb = fb) :=
  ⟨by intro G; cases G <;> rfl,
   C3_unbound_context rawCtx (by intro G; cases G <;> rfl) Field.Method⟩

/-- Claim C4: for every context, fallback and field, `F(ctx, fb)` is `fb` when `GetF(ctx)`
returns an error or the empty string, and is otherwise exactly the string `GetF(ctx)`
returned; the result is a plain string, no error is passed on. -/
theorem C4_fallback_wraps_Get (ctx : Context) (fb : String) (F : Field) :
    F.OrFallback ctx fb =
      (if (F.Get ctx).2 ≠ none ∨ (F.Get ctx).1 = "" then fb else (F.Get ctx).1) := by
  rw [OrFallback_eq]
  by_cases h1 : (F.Get ctx).1 = "" <;> by_cases h2 : (F.Get ctx).2 = none <;> simp [h1, h2]

/-- Claim C5: `GetF(ctx)` returns an error exactly when the nearest binding of the key of
`F` in `ctx` is absent or holds a value that is not a string, and then the returned string
is empty; when the nearest binding is a string `s`, `GetF(ctx)` is `(s, nil)`. The accessor
is a function of the context alone and returns no context, so it cannot change it. -/
theorem C5_Get_error_iff (ctx : Context) (F : Field) :
    ((F.Get ctx).2 ≠ none ↔
      (ctx.binding (Any.errKey F.key) = none ∨
        ∃ v, ctx.binding (Any.errKey F.key) = some v ∧ ∀ s : String, v ≠ Any.string s)) ∧
    ((F.Get ctx).2 ≠ none → (F.Get ctx).1 = "") ∧
    (∀ s : String, ctx.binding (Any.errKey F.key) = some (Any.string s) →
      F.Get ctx = (s, none)) := by
  have hg := Get_eq F ctx
  have hv := Value_eq_binding ctx (Any.errKey F.key)
  cases hb : ctx.binding (Any.errKey F.key) with
  | none =>
    rw [hb] at hv
    simp only [Option.getD_none] at hv
    rw [hv] at hg
    simp [hg]
  | some v =>
    rw [hb] at hv
    simp only [Option.getD_some] at hv
    rw [hv] at hg
    cases v <;> simp [hg]

/-- Witness for C5: in `oddCtx` the method key is bound to the integer 42, which is not a
string, so by C5 `GetMethod` returns an error and the empty string. -/
theorem C5_Get_error_iff_witness :
    (∃ v, oddCtx.binding (Any.errKey Field.Method.key) = some v ∧ ∀ s : String, v ≠ Any.string s) ∧
    (Field.Method.Get oddCtx).2 ≠ none ∧ (Field.Method.Get oddCtx).1 = "" :=
  have hb : ∃ v, oddCtx.binding (Any.errKey Field.Method.key) = some v ∧
      ∀ s : String, v ≠ Any.string s := ⟨Any.int 42, rfl, fun _ => Any.noConfusion⟩
  have he : (Field.Method.Get oddCtx).2 ≠ none :=
    (C5_Get_error_iff oddCtx Field.Method).1.mpr (Or.inr hb)
  ⟨hb, he, (C5_Get_error_iff oddCtx Field.Method).2.1 he⟩

/-- Claim C6: nested wrapping is last-write-wins. `New (New next)` passes to `next` the
once-wrapped request wrapped again; the context that request carries is the derived context
of the once-wrapped request, and on it every `GetF` gives the same result as on the context
carried by the request a single `New` passes on, namely the value of `r`. More generally,
whatever context `c` the incoming request carries (also one that already binds the six
private keys), the request passed to `next` carries a context in which the nearest binding
of each private key is the value read from the request. On the scenario request, `next`
under `New (New next)` reads the method `POST`, and so does `next` under `New next` when the
incoming context bound the method key to the integer 42. -/
theorem C6_nested_New_last_write_wins (next : Handler) (w : ResponseWriter) (r : Request)
    (F : Field) :
    (New (New next)).ServeHTTP w r =
      next.ServeHTTP w
        ((r.WithContext (derivedCtx r)).WithContext (derivedCtx (r.WithContext (derivedCtx r)))) ∧
    ((r.WithContext (derivedCtx r)).WithContext
        (derivedCtx (r.WithContext (derivedCtx r)))).Context =
      derivedCtx (r.WithContext (derivedCtx r)) ∧
    (New next).ServeHTTP w r = next.ServeHTTP w (r.WithContext (derivedCtx r)) ∧
    (r.WithContext (derivedCtx r)).Context = derivedCtx r ∧
    F.Get ((r.WithContext (derivedCtx r)).WithContext
        (derivedCtx (r.WithContext (derivedCtx r)))).Context =
      F.Get (r.WithContext (derivedCtx r)).Context ∧
    F.Get ((r.WithContext (derivedCtx r)).WithContext
        (derivedCtx (r.WithContext (derivedCtx r)))).Context =
      (F.ofRequest r, none) ∧
    F.Get (derivedCtx (r.WithContext (derivedCtx r))) = F.Get (derivedCtx r) ∧
    F.Get (derivedCtx (r.WithContext (derivedCtx r))) = (F.ofRequest r, none) ∧
    (∀ c : Context,
      (r.WithContext c).Context = c ∧
      (New next).ServeHTTP w (r.WithContext c) =
        next.ServeHTTP w ((r.WithContext c).WithContext (derivedCtx (r.WithContext c))) ∧
      ((r.WithContext c).WithContext (derivedCtx (r.WithContext c))).Context =
        derivedCtx (r.WithContext c) ∧
      ((r.WithContext c).WithContext (derivedCtx (r.WithContext c))).Context.binding
          (Any.errKey F.key) =
        some (Any.string (F.ofRequest r)) ∧
      F.Get ((r.WithContext c).WithContext (derivedCtx (r.WithContext c))).Context =
        (F.ofRequest r, none) ∧
      (derivedCtx (r.WithContext c)).binding (Any.errKey F.key) =
        some (Any.string (F.ofRequest r)) ∧
      F.Get (derivedCtx (r.WithContext c)) = (F.ofRequest r, none)) ∧
    GetMethod ((scenarioRequest.WithContext (derivedCtx scenarioRequest)).WithContext
        (derivedCtx (scenarioRequest.WithContext (derivedCtx scenarioRequest)))).Context =
      ("POST", none) ∧
    GetMethod (scenarioRequest.WithContext oddCtx).Context = ("", errors.New "failed to get method") ∧
    GetMethod ((scenarioRequest.WithContext oddCtx).WithContext
        (derivedCtx (scenarioRequest.WithContext oddCtx))).Context =
      ("POST", none) := by
  have hc : ∀ (q : Request) (c : Context), (q.WithContext c).Context = c :=
    WithContext_Context
  refine ⟨rfl, hc _ _, rfl, hc _ _, ?_, ?_, ?_, ?_, ?_, by decide, by decide, by decide⟩
  · rw [hc, hc, derivedCtx_Get, derivedCtx_Get, ofRequest_WithContext]
  · rw [hc, derivedCtx_Get, ofRequest_WithContext]
  · rw [derivedCtx_Get, derivedCtx_Get, ofRequest_WithContext]
  · rw [derivedCtx_Get, ofRequest_WithContext]
  · intro c
    rw [hc, hc, derivedCtx_binding, derivedCtx_Get, ofRequest_WithContext]
    exact ⟨rfl, rfl, rfl, rfl, rfl, rfl, rfl⟩

/-- Claim C7: `New` only adds values. `New next` passes to `next` the request carrying the
context `derivedCtx r`, and for every key `k` other than the six private keys, looking `k`
up in the context of that request gives what looking it up in the original context of `r`
gives (the same nearest binding, hence the same `Value`); the original context is left as
it was and sits unchanged six layers below the top of the derived one. On the scenario
request carrying `rawCtx`, the key `main.userKey` is bound to 7 before and after. -/
theorem C7_New_frame (next : Handler) (w : ResponseWriter) (r : Request) (k : Any)
    (h : ∀ F : Field, k ≠ Any.errKey F.key) :
    (New next).ServeHTTP w r = next.ServeHTTP w (r.WithContext (derivedCtx r)) ∧
    (r.WithContext (derivedCtx r)).Context = derivedCtx r ∧
    (r.WithContext (derivedCtx r)).Context.binding k = r.Context.binding k ∧
    (r.WithContext (derivedCtx r)).Context.Value k = r.Context.Value k ∧
    (derivedCtx r).binding k = r.Context.binding k ∧
    (derivedCtx r).Value k = r.Context.Value k ∧
    ancestor 6 (r.WithContext (derivedCtx r)).Context = r.Context ∧
    ancestor 6 (derivedCtx r) = r.Context ∧
    (scenarioRequest.WithContext rawCtx).Context.Value (Any.foreign "main.userKey" "0") =
      Any.int 7 ∧
    ((scenarioRequest.WithContext rawCtx).WithContext
        (derivedCtx (scenarioRequest.WithContext rawCtx))).Context.Value
        (Any.foreign "main.userKey" "0") =
      Any.int 7 := by
  have hc : (r.WithContext (derivedCtx r)).Context = derivedCtx r :=
    WithContext_Context r (derivedCtx r)
  have hv : (derivedCtx r).Value k = r.Context.Value k := by
    rw [Value_eq_binding, Value_eq_binding, derivedCtx_frame r k h]
  refine ⟨rfl, hc, ?_, ?_, derivedCtx_frame r k h, hv, ?_, rfl, by decide, by decide⟩
  · rw [hc]; exact derivedCtx_frame r k h
  · rw [hc]; exact hv
  · rw [hc]; rfl

/-- Witness for C7: the key `main.userKey` of `rawCtx` is none of the six private keys, and
C7 holds for it on the scenario request carrying `rawCtx`, served through `New idle`. -/
theorem C7_New_frame_witness :
    (∀ F : Field, Any.foreign "main.userKey" "0" ≠ Any.errKey F.key) ∧
    ((New idle).ServeHTTP blankWriter (scenarioRequest.WithContext rawCtx) =
        idle.ServeHTTP blankWriter
          ((scenarioRequest.WithContext rawCtx).WithContext
            (derivedCtx (scenarioRequest.WithContext rawCtx))) ∧
      ((scenarioRequest.WithContext rawCtx).WithContext
          (derivedCtx (scenarioRequest.WithContext rawCtx))).Context =
        derivedCtx (scenarioRequest.WithContext rawCtx) ∧
      ((scenarioRequest.WithContext rawCtx).WithContext
          (derivedCtx (scenarioRequest.WithContext rawCtx))).Context.binding
          (Any.foreign "main.userKey" "0") =
        (scenarioRequest.WithContext rawCtx).Context.binding (Any.foreign "main.userKey" "0") ∧
      ((scenarioRequest.WithContext rawCtx).WithContext
          (derivedCtx (scenarioRequest.WithContext rawCtx))).Context.Value
          (Any.foreign "main.userKey" "0") =
        (scenarioRequest.WithContext rawCtx).Context.Value (Any.foreign "main.userKey" "0") ∧
      (derivedCtx (scenarioRequest.WithContext rawCtx)).binding (Any.foreign "main.userKey" "0") =
        (scenarioRequest.WithContext rawCtx).Context.binding (Any.foreign "main.userKey" "0") ∧
      (derivedCtx (scenarioRequest.WithContext rawCtx)).Value (Any.foreign "main.userKey" "0") =
        (scenarioRequest.WithContext rawCtx).Context.Value (Any.foreign "main.userKey" "0") ∧
      ancestor 6 ((scenarioRequest.WithContext rawCtx).WithContext
          (derivedCtx (scenarioRequest.WithContext rawCtx))).Context =
        (scenarioRequest.WithContext rawCtx).Context ∧
      ancestor 6 (derivedCtx (scenarioRequest.WithContext rawCtx)) =
        (scenarioRequest.WithContext rawCtx).Context ∧
      (scenarioRequest.WithContext rawCtx).Context.Value (Any.foreign "main.userKey" "0") =
        Any.int 7 ∧
      ((scenarioRequest.WithContext rawCtx).WithContext
          (derivedCtx (scenarioRequest.WithContext rawCtx))).Context.Value
          (Any.foreign "main.userKey" "0") =
        Any.int 7) :=
  ⟨fun _ => Any.noConfusion,
   C7_New_frame idle blankWriter (scenarioRequest.WithContext rawCtx)
     (Any.foreign "main.userKey" "0") (fun _ => Any.noConfusion)⟩

/-- Claim C8: serving `(w, r)` through `New next` is one call of `next` on the same `w` and
on a request that differs from `r` only in its context: putting the old context back gives
`r`, and the request URI, method, URL, headers (so also `Referer` and `User-Agent`) and
remote address are those of `r`. The wrapper adds no failure and no write of its own: with a
handler that does nothing the writer comes back unchanged, and a handler that appends one
line per call leaves exactly one line. -/
theorem C8_New_delegates_once (next : Handler) (w : ResponseWriter) (r : Request) :
    (New next).ServeHTTP w r = next.ServeHTTP w (r.WithContext (derivedCtx r)) ∧
    { r.WithContext (derivedCtx r) with ctx := r.ctx } = r ∧
    (r.WithContext (derivedCtx r)).RequestURI = r.RequestURI ∧
    (r.WithContext (derivedCtx r)).Method = r.Method ∧
    (r.WithContext (derivedCtx r)).URL = r.URL ∧
    (r.WithContext (derivedCtx r)).Header = r.Header ∧
    (r.WithContext (derivedCtx r)).Referer = r.Referer ∧
    (r.WithContext (derivedCtx r)).UserAgent = r.UserAgent ∧
    (r.WithContext (derivedCtx r)).RemoteAddr = r.RemoteAddr ∧
    (New idle).ServeHTTP w r = Except.ok w ∧
    (New tally).ServeHTTP w r =
      Except.ok { w with body := w.body ++ [r.Method ++ " " ++ r.RequestURI] } :=
  ⟨rfl, rfl, rfl, rfl, rfl, rfl, rfl, rfl, rfl, rfl, rfl⟩

/-- Claim C9: whenever `GetF` returns an error `e`, its message is `failed to get `
followed by the name of the field, which is the message `Field.message` lists for it
(`failed to get requestURI`, `failed to get method`, `failed to get path`,
`failed to get referer`, `failed to get user-agent`, `failed to get remote address`); and an error returned by the accessor of a field `G` has
the same message only if `G` is `F`, so the message tells which field was missing. -/
theorem C9_error_message (ctx : Context) (F : Field) (e : errors.errorString)
    (h : (F.Get ctx).2 = some e) :
    e.Error = "failed to get " ++ F.label ∧
    e.Error = F.message ∧
    (∀ (G : Field) (ctx2 : Context) (e2 : errors.errorString),
      (G.Get ctx2).2 = some e2 → e2.Error = e.Error → G = F) := by
  have key : ∀ (G : Field) (c : Context) (x : errors.errorString),
      (G.Get c).2 = some x → x.Error = "failed to get " ++ G.label := by
    intro G c x hx
    rw [Get_eq] at hx
    split at hx
    · simp at hx
    · simp only [Option.some.injEq] at hx
      rw [← hx]; rfl
  have h1 := key F ctx e h
  refine ⟨h1, ?_, ?_⟩
  · rw [h1]; cases F <;> decide
  · intro G ctx2 e2 h2 heq
    have h3 := key G ctx2 e2 h2
    rw [h3, h1] at heq
    revert heq
    cases G <;> cases F <;> decide

/-- Witness for C9: on the empty context `GetUserAgent` returns the error with message
`failed to get user-agent`, and C9 holds for it. -/
theorem C9_error_message_witness :
    (Field.UserAgent.Get Context.emptyCtx).2 = some ⟨"failed to get user-agent"⟩ ∧
    ((errors.errorString.mk "failed to get user-agent").Error =
        "failed to get " ++ Field.UserAgent.label ∧
      (errors.errorString.mk "failed to get user-agent").Error = Field.UserAgent.message ∧
      (∀ (G : Field) (ctx2 : Context) (e2 : errors.errorString),
        (G.Get ctx2).2 = some e2 →
          e2.Error = (errors.errorString.mk "failed to get user-agent").Error →
          G = Field.UserAgent)) :=
  ⟨rfl, C9_error_message Context.emptyCtx Field.UserAgent ⟨"failed to get user-agent"⟩ rfl⟩

/-- Claim C10: for every context, field and non-empty fallback `fb`, `F(ctx, fb)` is not the
empty string; so `F(ctx, fb2)` can be empty only when `fb2` is empty. -/
theorem C10_fallback_nonempty (ctx : Context) (F : Field) (fb : String) (h : fb ≠ "") :
    F.OrFallback ctx fb ≠ "" ∧
    (∀ fb2 : String, F.OrFallback ctx fb2 = "" → fb2 = "") := by
  have key : ∀ x : String, F.OrFallback ctx x = "" → x = "" := by
    intro x hx
    rw [OrFallback_eq] at hx
    split at hx
    · exact hx
    · next hn =>
      exact absurd hx (fun hc => hn (Or.inl hc))
  exact ⟨fun hc => h (key fb hc), key⟩

/-- Witness for C10: in `oddCtx`, where the method key holds a non-string, C10 holds for
`Method` with the non-empty fallback `GET`. -/
theorem C10_fallback_nonempty_witness :
    "GET" ≠ "" ∧
    (Field.Method.OrFallback oddCtx "GET" ≠ "" ∧
      (∀ fb2 : String, Field.Method.OrFallback oddCtx fb2 = "" → fb2 = "")) :=
  ⟨by decide, C10_fallback_nonempty oddCtx Field.Method "GET" (by decide)⟩

end req
